import Mathlib

/-!
Shallow embedding of `src/userMigrationDash.py` (class `MigrationStats`):
the file-based cache (`should_update_cache`), the snapshot computation and
cache refresh (`get_migration_stats`), and the four SQL queries it issues.

Modelling conventions:
* JSON values are the inductive `Json`.  `Json.obj` models a dict already
  produced by `json.load` (so its keys are unique; field lookup takes the
  first match).  Numbers are rationals (Python ints and floats both embed).
* The cache file is `Option (Option Json)`: `none` = file absent,
  `some none` = bytes that `json.load` rejects (raising `JSONDecodeError`),
  `some (some j)` = content parsing to `j`.
* Time is integer seconds (`Nat`).  `datetime.now().isoformat()` is modelled
  by the injective decimal printer `natToStr`, and `datetime.fromisoformat`
  by its partial inverse `natFromStr`, which fails (Python `ValueError`)
  exactly on strings that are not such timestamps — in particular on `""`,
  the default that `cache.get('last_update', '')` supplies.
* Python exceptions are the inductive `PyErr`; fallible steps return
  `Except PyErr _`.  `repositoryError` stands for the pymysql connection /
  query errors (the spec's `RepositoryError`).
* The `users` table is a list of `UserRow`; the four queries are modelled
  over it (COUNT(*) = length, the IS NOT NULL filter, and the two
  GROUP BY / ORDER BY bucket queries).
-/

/-- Python exception classes that can arise in the embedded code. -/
inductive PyErr where
  | jsonDecodeError
  | valueError
  | keyError
  | attributeError
  | typeError
  | fileNotFoundError
  | repositoryError
  | unboundLocalError
deriving DecidableEq, Repr

/-- JSON values as produced by `json.load` / consumed by `json.dump`.
`obj` models an already-parsed Python dict (unique keys). -/
inductive Json where
  | null
  | bool (b : Bool)
  | num (q : ℚ)
  | str (s : String)
  | arr (elems : List Json)
  | obj (fields : List (String × Json))

/-- One row of the `users` table: the nullable `cm_firebase_token` column and
the `updated_at` timestamp (integer seconds). -/
structure UserRow where
  cm_firebase_token : Option String
  updated_at : Nat

/-- The state the embedded code touches: the cache file and the clock.
`file = none` means `migration_stats_cache.json` does not exist;
`file = some none` means it holds bytes that `json.load` rejects;
`file = some (some j)` means it holds a serialization of `j`. -/
structure Sys where
  file : Option (Option Json)
  now : Nat

/- ### Decimal timestamp strings (model of isoformat / fromisoformat) -/

/-- Little-endian base-10 digits of `n` (empty for `0`), with explicit fuel so
that the recursion is structural and kernel-reducible. -/
def toDigitsRev : Nat → Nat → List Nat
  | 0, _ => []
  | _ + 1, 0 => []
  | fuel + 1, n + 1 => ((n + 1) % 10) :: toDigitsRev fuel ((n + 1) / 10)

/-- Value of a little-endian digit list. -/
def ofDigitsRev : List Nat → Nat
  | [] => 0
  | d :: ds => d + 10 * ofDigitsRev ds

/-- The character for one decimal digit. -/
def digitChar (d : Nat) : Char := Char.ofNat (48 + d)

/-- Is `c` one of '0'..'9'? -/
def isDigitCh (c : Char) : Bool := 48 ≤ c.toNat && c.toNat ≤ 57

/-- Numeric value of a digit character. -/
def digitVal (c : Char) : Nat := c.toNat - 48

/-- Model of `datetime.isoformat`: print the timestamp `n` in decimal. -/
def natToStr (n : Nat) : String :=
  if n = 0 then "0" else String.mk (((toDigitsRev n n).map digitChar).reverse)

/-- Model of `datetime.fromisoformat` on strings: parse a nonempty all-digit
string back to a timestamp, otherwise fail (Python raises `ValueError`;
in particular `natFromStr "" = none`). -/
def natFromStr (s : String) : Option Nat :=
  match s.data with
  | [] => none
  | c :: cs =>
      if (c :: cs).all isDigitCh then
        some (ofDigitsRev (((c :: cs).reverse).map digitVal))
      else none

/- ### The four SQL queries (modelled over the `users` table) -/

/-- `SELECT COUNT(*) as total FROM users`. -/
def total_users (db : List UserRow) : Nat := db.length

/-- The rows satisfying `cm_firebase_token IS NOT NULL`. -/
def migratedRows (db : List UserRow) : List UserRow :=
  db.filter fun u => u.cm_firebase_token.isSome

/-- `SELECT COUNT(*) as migrated FROM users WHERE cm_firebase_token IS NOT NULL`. -/
def migrated_users (db : List UserRow) : Nat := (migratedRows db).length

/-- `DATE_FORMAT(updated_at, '%Y-%m-%d %H:00:00')`: truncate to the hour. -/
def hourBucket (t : Nat) : Nat := t / 3600 * 3600

/-- `DATE(updated_at)`: truncate to the calendar day. -/
def dayBucket (t : Nat) : Nat := t / 86400 * 86400

/-- Insert a key into a sorted duplicate-free list, keeping it sorted. -/
def insertKey (x : Nat) : List Nat → List Nat
  | [] => [x]
  | y :: ys =>
      if x < y then x :: y :: ys
      else if x = y then y :: ys
      else y :: insertKey x ys

/-- The distinct keys of a list, ascending. -/
def sortedKeys (ts : List Nat) : List Nat := ts.foldr insertKey []

/-- `GROUP BY` + `COUNT(*)` + `ORDER BY` ascending over a list of keys. -/
def groupCounts (ts : List Nat) : List (Nat × Nat) :=
  (sortedKeys ts).map fun k => (k, ts.count k)

/-- The hourly query: migrated rows with `updated_at >= NOW() - INTERVAL 24 HOUR`,
grouped by hour bucket, counted, ascending; each row rendered as the dict
`{'hour': str(bucket), 'count': n}` exactly as the Python code serializes it. -/
def hourly_data (db : List UserRow) (now : Nat) : List Json :=
  (groupCounts (((migratedRows db).filter fun u => now - 86400 ≤ u.updated_at).map
      fun u => hourBucket u.updated_at)).map
    fun kc => .obj [("hour", .str (natToStr kc.1)), ("count", .num (kc.2 : ℚ))]

/-- The daily query: migrated rows with `updated_at >= NOW() - INTERVAL 7 DAY`,
grouped by day bucket, counted, ascending; each row rendered as
`{'date': str(bucket), 'count': n}`. -/
def daily_data (db : List UserRow) (now : Nat) : List Json :=
  (groupCounts (((migratedRows db).filter fun u => now - 604800 ≤ u.updated_at).map
      fun u => dayBucket u.updated_at)).map
    fun kc => .obj [("date", .str (natToStr kc.1)), ("count", .num (kc.2 : ℚ))]

/-- Round an integer-over-denominator fraction `n / d` (with `d > 0`) to the
nearest integer, ties to even — the rounding Python's `round` uses. -/
def roundHalfEven (n : Int) (d : Nat) : Int :=
  if 2 * (n - n.fdiv d * d) < (d : Int) then n.fdiv d
  else if (d : Int) < 2 * (n - n.fdiv d * d) then n.fdiv d + 1
  else if n.fdiv d % 2 = 0 then n.fdiv d else n.fdiv d + 1

/-- Python's `round(x, 2)` at exact rational arithmetic: round `x * 100` to the
nearest integer (ties to even, banker's rounding) and divide back by 100. -/
def pyRound2 (x : ℚ) : ℚ :=
  (roundHalfEven (x * 100).num (x * 100).den : ℚ) / 100

/-- The fields of the `stats` dict assembled at lines 93-101 of the source, in
source order. -/
def statsFields (db : List UserRow) (now : Nat) : List (String × Json) :=
  [ ("total_users", .num (total_users db : ℚ)),
    ("migrated_users", .num (migrated_users db : ℚ)),
    ("pending_users", .num ((total_users db : ℚ) - (migrated_users db : ℚ))),
    ("migration_rate", .num (if 0 < total_users db then
        pyRound2 ((migrated_users db : ℚ) / (total_users db : ℚ) * 100) else 0)),
    ("hourly_data", .arr (hourly_data db now)),
    ("daily_data", .arr (daily_data db now)),
    ("last_update", .str (natToStr now)) ]

/-- The assembled `stats` dict. -/
def statsDict (db : List UserRow) (now : Nat) : Json := .obj (statsFields db now)

/- ### The cache layer -/

/-- `self.cache_duration = 300`. -/
def cache_duration : Nat := 300

/-- First-match field lookup in a parsed dict. -/
def getField : List (String × Json) → String → Option Json
  | [], _ => none
  | kv :: rest, k => if kv.1 = k then some kv.2 else getField rest k

/-- Model of `open(self.cache_file, 'r')` + `json.load(f)`: an absent file
raises `FileNotFoundError`, unparseable bytes raise `JSONDecodeError`,
otherwise the parsed value is returned.  Reading does not change the state. -/
def readCache (s : Sys) : Except PyErr Json :=
  match s.file with
  | none => .error .fileNotFoundError
  | some none => .error .jsonDecodeError
  | some (some j) => .ok j

/-- Model of `cache.get('last_update', '')`: a dict returns the field (or the
default `''`); any non-dict value has no `.get` method, raising
`AttributeError`. -/
def dictGet (j : Json) (k : String) (dflt : Json) : Except PyErr Json :=
  match j with
  | .obj fields => .ok ((getField fields k).getD dflt)
  | _ => .error .attributeError

/-- Model of `datetime.fromisoformat(v)`: a non-string argument raises
`TypeError`; a string that is not a valid timestamp raises `ValueError`. -/
def fromisoformat (v : Json) : Except PyErr Nat :=
  match v with
  | .str s =>
      match natFromStr s with
      | some t => .ok t
      | none => .error .valueError
  | _ => .error .typeError

/-- The body of the `try` block of `should_update_cache` applied to the parsed
cache value `j`: read `last_update`, parse it, compare the elapsed time
against `cache_duration` (strict `>`). -/
def checkBody (j : Json) (now : Nat) : Except PyErr Bool :=
  match dictGet j "last_update" (.str "") with
  | .error e => .error e
  | .ok v =>
      match fromisoformat v with
      | .error e => .error e
      | .ok last_update => .ok (decide (now - last_update > cache_duration))

/-- `MigrationStats.should_update_cache` (source lines 31-43).  Returns the
result and the post-state.  An absent file returns `True`; `json.load`
failing with `JSONDecodeError` is caught by the
`except (json.JSONDecodeError, ValueError, KeyError)` clause, as are
`ValueError` and `KeyError` from the timestamp handling; any other
exception (e.g. `AttributeError`, `TypeError`) propagates. -/
def should_update_cache (s : Sys) : Except PyErr Bool × Sys :=
  match s.file with
  | none => (.ok true, s)
  | some none => (.ok true, s)
  | some (some j) =>
      match checkBody j s.now with
      | .ok b => (.ok b, s)
      | .error .jsonDecodeError => (.ok true, s)
      | .error .valueError => (.ok true, s)
      | .error .keyError => (.ok true, s)
      | .error e => (.error e, s)

/- ### The refresh path: connection, queries, try/finally -/

/-- How the database behaves during one call: the connection attempt fails,
query number `k` (0-based, in source order) fails, or everything succeeds. -/
inductive DbBehavior where
  | connectFail
  | failAt (k : Fin 4)
  | ok
deriving DecidableEq

/-- Which connection/cursor resources were acquired and released during a call. -/
structure ResourceLog where
  connOpened : Bool
  connClosed : Bool
  cursorOpened : Bool
  cursorClosed : Bool
deriving DecidableEq, Repr

/-- No database interaction at all (the cache-hit and early-error paths). -/
def noDb : ResourceLog := ⟨false, false, false, false⟩

/-- Outcome of the `try` block of `get_migration_stats` (source lines 51-107):
the produced value or in-flight exception, the cache file it leaves behind,
and which of the locals `conn` / `cursor` got bound. -/
structure TryOutcome where
  result : Except PyErr Json
  file' : Option (Option Json)
  connBound : Bool
  cursorBound : Bool

/-- The `try` block: `conn = self.get_db_connection()` (which may raise a
pymysql error before `conn` is bound), `cursor = conn.cursor()`, the four
queries (any of which may raise), the `stats` dict, and the cache write —
which happens only after all four queries succeeded. -/
def dbTryBlock (db : List UserRow) (beh : DbBehavior) (s : Sys) : TryOutcome :=
  match beh with
  | .connectFail => ⟨.error .repositoryError, s.file, false, false⟩
  | .failAt _ => ⟨.error .repositoryError, s.file, true, true⟩
  | .ok => ⟨.ok (statsDict db s.now), some (some (statsDict db s.now)), true, true⟩

/-- The `finally` block: `cursor.close(); conn.close()`.  Referencing a local
that was never bound raises `UnboundLocalError`, which replaces any
in-flight exception and skips the rest of the block. -/
def runFinally (o : TryOutcome) : Except PyErr Json × ResourceLog :=
  if o.cursorBound then
    if o.connBound then (o.result, ⟨true, true, true, true⟩)
    else (.error .unboundLocalError, ⟨false, false, true, true⟩)
  else (.error .unboundLocalError, ⟨o.connBound, false, false, false⟩)

/-- `MigrationStats.get_migration_stats` (source lines 45-111): consult
`should_update_cache`; on a hit re-open and re-parse the cache file and
return it verbatim; otherwise run the `try`/`finally` refresh.  Returns the
result, the post-state, and the resource log. -/
def get_migration_stats (db : List UserRow) (beh : DbBehavior) (s : Sys) :
    Except PyErr Json × Sys × ResourceLog :=
  match should_update_cache s with
  | (.error e, s') => (.error e, s', noDb)
  | (.ok false, s') => (readCache s', s', noDb)
  | (.ok true, s') =>
      match runFinally (dbTryBlock db beh s') with
      | (r, log) => (r, { s' with file := (dbTryBlock db beh s').file' }, log)

/- ### Spec-side definitions (from the spec's words, for refinement claims) -/

/-- Modelled from the spec: `is_stale()` "returns true if no cache file
exists, OR the stored file cannot be parsed as valid structured data, OR the
stored file lacks a valid timestamp field, OR the elapsed time since the
stored timestamp exceeds a configured time-to-live (300 seconds)". -/
def is_stale_spec (s : Sys) : Bool :=
  match s.file with
  | none => true
  | some none => true
  | some (some j) =>
      match j with
      | .obj fields =>
          match getField fields "last_update" with
          | some (.str t) =>
              match natFromStr t with
              | some last_update => decide (s.now - last_update > 300)
              | none => true
          | _ => true
      | _ => true

/-- The cache-file contents on which `should_update_cache` reaches the
`except` clause with one of the caught exception classes, or succeeds: the
file is absent, or unparseable, or parses to a dict whose `last_update` is
absent or a string.  (Excluded: parseable non-dict content — `.get` raises
`AttributeError` — and a present non-string `last_update` —
`fromisoformat` raises `TypeError` — neither of which is caught.) -/
def benignCache (s : Sys) : Bool :=
  match s.file with
  | none => true
  | some none => true
  | some (some j) =>
      match j with
      | .obj fields =>
          match getField fields "last_update" with
          | some (.str _) => true
          | none => true
          | some _ => false
      | _ => false

/-- Cache-file contents (present file) that are malformed, or parse to a dict
whose `last_update` field is missing or is a string that is not a valid
timestamp: the cases C1 enumerates, restricted to those the code catches. -/
def parseFailsOrBadTs (c : Option Json) : Bool :=
  match c with
  | none => true
  | some (.obj fields) =>
      match getField fields "last_update" with
      | none => true
      | some (.str t) => (natFromStr t).isNone
      | some _ => false
  | some _ => false

/-- Model of the cache write at lines 104-105: `json.dump(stats, f)` after
`open(self.cache_file, 'w')`, fully overwriting prior contents. -/
def storeCache (j : Json) (s : Sys) : Sys := { s with file := some (some j) }

/-- Total field accessor on a JSON value (`none` on non-dicts). -/
def jsonGetField (j : Json) (k : String) : Option Json :=
  match j with
  | .obj fields => getField fields k
  | _ => none

/- ### Concrete inputs used by witnesses and counterexamples -/

/-- A four-row `users` table with exactly one migrated row. -/
def db4 : List UserRow := [⟨some "tok", 50⟩, ⟨none, 10⟩, ⟨none, 20⟩, ⟨none, 30⟩]

/-- A cache value whose `last_update` is 301 seconds before `now = 1000`. -/
def sys301 : Sys := ⟨some (some (.obj [("last_update", .str (natToStr 699))])), 1000⟩

/-- A cache value whose `last_update` is 299 seconds before `now = 1000`. -/
def sys299 : Sys := ⟨some (some (.obj [("last_update", .str (natToStr 701))])), 1000⟩

/-- A cache file whose content parses to the JSON array `[]`: valid structured
data, but with no `last_update` timestamp field anywhere. -/
def sysArr : Sys := ⟨some (some (.arr [])), 1000⟩

/-- A fresh cache value that is NOT a well-formed snapshot: every snapshot
field is missing except the timestamp. -/
def jHit : Json := .obj [("last_update", .str (natToStr 100))]

/-- A state holding `jHit` with zero elapsed time: a cache hit. -/
def sysHit : Sys := ⟨some (some jHit), 100⟩

/-- A stale state: the cache file holds unparseable bytes. -/
def sysStale : Sys := ⟨some none, 1000⟩
theorem ofDigitsRev_toDigitsRev (fuel n : Nat) (h : n ≤ fuel) :
    ofDigitsRev (toDigitsRev fuel n) = n := by
  induction fuel generalizing n with
  | zero =>
      interval_cases n
      rfl
  | succ fuel ih =>
      cases n with
      | zero => rfl
      | succ m =>
          have hdiv : (m + 1) / 10 ≤ fuel := by
            have hlt : (m + 1) / 10 < m + 1 := Nat.div_lt_self (Nat.succ_pos m) (by norm_num)
            omega
          simp only [toDigitsRev, ofDigitsRev, ih _ hdiv]
          omega

theorem toDigitsRev_lt_ten (fuel n : Nat) : ∀ d ∈ toDigitsRev fuel n, d < 10 := by
  induction fuel generalizing n with
  | zero => intro d hd; simp [toDigitsRev] at hd
  | succ fuel ih =>
      cases n with
      | zero => intro d hd; simp [toDigitsRev] at hd
      | succ m =>
          intro d hd
          simp only [toDigitsRev, List.mem_cons] at hd
          rcases hd with h | h
          · subst h; exact Nat.mod_lt _ (by norm_num)
          · exact ih _ d h

theorem digitVal_digitChar : ∀ d, d < 10 → digitVal (digitChar d) = d := by decide

theorem isDigitCh_digitChar : ∀ d, d < 10 → isDigitCh (digitChar d) = true := by decide

theorem map_digitVal_digitChar (ds : List Nat) (h : ∀ d ∈ ds, d < 10) :
    (ds.map digitChar).map digitVal = ds := by
  induction ds with
  | nil => rfl
  | cons d ds ih =>
      simp only [List.map_cons, List.cons.injEq]
      exact ⟨digitVal_digitChar d (h d (List.mem_cons_self d ds)),
             ih fun x hx => h x (List.mem_cons_of_mem d hx)⟩

theorem all_isDigitCh_map (ds : List Nat) (h : ∀ d ∈ ds, d < 10) :
    (ds.map digitChar).all isDigitCh = true := by
  induction ds with
  | nil => rfl
  | cons d ds ih =>
      simp only [List.map_cons, List.all_cons, Bool.and_eq_true]
      exact ⟨isDigitCh_digitChar d (h d (List.mem_cons_self d ds)),
             ih fun x hx => h x (List.mem_cons_of_mem d hx)⟩

/-- The timestamp encoding round-trips: parsing a printed timestamp recovers it. -/
theorem natFromStr_natToStr (n : Nat) : natFromStr (natToStr n) = some n := by
  cases n with
  | zero => rfl
  | succ m =>
      have hdigits : ∀ d ∈ toDigitsRev (m + 1) (m + 1), d < 10 :=
        toDigitsRev_lt_ten (m + 1) (m + 1)
      have hshape : toDigitsRev (m + 1) (m + 1) =
          ((m + 1) % 10) :: toDigitsRev m ((m + 1) / 10) := rfl
      simp only [natToStr, Nat.succ_ne_zero, if_false]
      have hdata : (String.mk (((toDigitsRev (m + 1) (m + 1)).map digitChar).reverse)).data
          = ((toDigitsRev (m + 1) (m + 1)).map digitChar).reverse := rfl
      rw [natFromStr]
      rw [hdata]
      rcases hrev : ((toDigitsRev (m + 1) (m + 1)).map digitChar).reverse with _ | ⟨c, cs⟩
      · exfalso
        have : (toDigitsRev (m + 1) (m + 1)).map digitChar = [] := by
          have := congrArg List.reverse hrev
          simpa using this
        rw [hshape] at this
        simp at this
      · rw [← hrev]
        have hall : (((toDigitsRev (m + 1) (m + 1)).map digitChar).reverse).all isDigitCh = true := by
          rw [List.all_eq_true] at *
          intro c hc
          have hc' : c ∈ (toDigitsRev (m + 1) (m + 1)).map digitChar := by
            rw [← List.mem_reverse]; exact hc
          exact (List.all_eq_true.mp (all_isDigitCh_map _ hdigits)) c hc'
        rw [hrev] at hall ⊢
        simp only [hall, if_true]
        rw [← hrev, List.reverse_reverse, map_digitVal_digitChar _ hdigits,
            ofDigitsRev_toDigitsRev (m + 1) (m + 1) (Nat.le_refl _)]

/- ### Helper lemmas about the staleness check -/

theorem checkBody_nonobj (j : Json) (now : Nat) (h : ∀ fields, j ≠ .obj fields) :
    checkBody j now = .error .attributeError := by
  cases j with
  | obj fields => exact absurd rfl (h fields)
  | null => rfl
  | bool b => rfl
  | num q => rfl
  | str s => rfl
  | arr es => rfl

theorem checkBody_no_field (fields : List (String × Json)) (now : Nat)
    (hf : getField fields "last_update" = none) :
    checkBody (.obj fields) now = .error .valueError := by
  simp only [checkBody, dictGet, hf, Option.getD]
  rfl

theorem checkBody_str (fields : List (String × Json)) (t : String) (lu now : Nat)
    (hf : getField fields "last_update" = some (.str t)) (ht : natFromStr t = some lu) :
    checkBody (.obj fields) now = .ok (decide (now - lu > cache_duration)) := by
  simp only [checkBody, dictGet, hf, Option.getD, fromisoformat, ht]

theorem checkBody_badstr (fields : List (String × Json)) (t : String) (now : Nat)
    (hf : getField fields "last_update" = some (.str t)) (ht : natFromStr t = none) :
    checkBody (.obj fields) now = .error .valueError := by
  simp only [checkBody, dictGet, hf, Option.getD, fromisoformat, ht]

theorem checkBody_nonstr (fields : List (String × Json)) (v : Json) (now : Nat)
    (hf : getField fields "last_update" = some v) (hv : ∀ t, v ≠ .str t) :
    checkBody (.obj fields) now = .error .typeError := by
  simp only [checkBody, dictGet, hf, Option.getD]
  cases v with
  | str t => exact absurd rfl (hv t)
  | null => rfl
  | bool b => rfl
  | num q => rfl
  | arr es => rfl
  | obj fs => rfl

theorem suc_of_checkBody_ok (j : Json) (now : Nat) (b : Bool)
    (h : checkBody j now = .ok b) :
    should_update_cache ⟨some (some j), now⟩ = (.ok b, ⟨some (some j), now⟩) := by
  simp only [should_update_cache, h]

theorem suc_of_checkBody_valueError (j : Json) (now : Nat)
    (h : checkBody j now = .error .valueError) :
    should_update_cache ⟨some (some j), now⟩ = (.ok true, ⟨some (some j), now⟩) := by
  simp only [should_update_cache, h]

theorem suc_of_checkBody_attributeError (j : Json) (now : Nat)
    (h : checkBody j now = .error .attributeError) :
    should_update_cache ⟨some (some j), now⟩ = (.error .attributeError, ⟨some (some j), now⟩) := by
  simp only [should_update_cache, h]

theorem suc_of_checkBody_typeError (j : Json) (now : Nat)
    (h : checkBody j now = .error .typeError) :
    should_update_cache ⟨some (some j), now⟩ = (.error .typeError, ⟨some (some j), now⟩) := by
  simp only [should_update_cache, h]

theorem snd_should_update_cache (s : Sys) : (should_update_cache s).2 = s := by
  rcases s with ⟨file, now⟩
  rcases file with _ | (_ | j)
  · rfl
  · rfl
  · cases h : checkBody j now with
    | ok b => rw [suc_of_checkBody_ok j now b h]
    | error e =>
        cases e with
        | valueError => rw [suc_of_checkBody_valueError j now h]
        | attributeError => rw [suc_of_checkBody_attributeError j now h]
        | typeError => rw [suc_of_checkBody_typeError j now h]
        | jsonDecodeError => simp only [should_update_cache, h]
        | keyError => simp only [should_update_cache, h]
        | fileNotFoundError => simp only [should_update_cache, h]
        | repositoryError => simp only [should_update_cache, h]
        | unboundLocalError => simp only [should_update_cache, h]

/- ### Claim theorems -/

/-- C10: `should_update_cache` never modifies the cache file or any other
state.  For every state, the post-state (file existence, file contents, and
clock) returned by `should_update_cache` is exactly the pre-state, whether the
check returns `true`, returns `false`, or raises. -/
theorem c10_should_update_cache_pure (s : Sys) : (should_update_cache s).2 = s :=
  snd_should_update_cache s

/-- C1 (amended): for every cache-file content that is malformed (unparseable
by `json.load`), or that parses to a dict whose `last_update` field is missing
or is a string that is not a valid timestamp, `should_update_cache` returns
`true` and raises no error.  (Contents parsing to a non-dict, or to a dict
whose `last_update` is present but not a string, instead raise
`AttributeError` / `TypeError` — see the counterexample.) -/
theorem c1_fail_open (s : Sys) (c : Option Json) (hfile : s.file = some c)
    (hbad : parseFailsOrBadTs c = true) :
    should_update_cache s = (.ok true, s) := by
  rcases s with ⟨file, now⟩
  simp only at hfile
  subst hfile
  rcases c with _ | j
  · rfl
  · cases j with
    | obj fields =>
        cases hf : getField fields "last_update" with
        | none => exact suc_of_checkBody_valueError _ now (checkBody_no_field fields now hf)
        | some v =>
            cases v with
            | str t =>
                cases ht : natFromStr t with
                | none =>
                    exact suc_of_checkBody_valueError _ now (checkBody_badstr fields t now hf ht)
                | some lu =>
                    exfalso
                    simp only [parseFailsOrBadTs, hf, ht, Option.isNone] at hbad
                    exact Bool.false_ne_true hbad
            | null => simp [parseFailsOrBadTs, hf] at hbad
            | bool b => simp [parseFailsOrBadTs, hf] at hbad
            | num q => simp [parseFailsOrBadTs, hf] at hbad
            | arr es => simp [parseFailsOrBadTs, hf] at hbad
            | obj fs => simp [parseFailsOrBadTs, hf] at hbad
    | null => simp [parseFailsOrBadTs] at hbad
    | bool b => simp [parseFailsOrBadTs] at hbad
    | num q => simp [parseFailsOrBadTs] at hbad
    | str t => simp [parseFailsOrBadTs] at hbad
    | arr es => simp [parseFailsOrBadTs] at hbad

/-- Witness for C1's amended theorem: a cache file holding unparseable bytes
makes `should_update_cache` return `true` without raising. -/
theorem c1_fail_open_witness :
    should_update_cache sysStale = (.ok true, sysStale) :=
  c1_fail_open sysStale none rfl rfl

/-- Counterexample to C1 as stated: the content parsing to the JSON array `[]`
lacks any `last_update` timestamp field, yet `should_update_cache` raises
`AttributeError` (from `cache.get`, which only dicts support) instead of
returning `true` — `AttributeError` is not in the caught exception tuple. -/
theorem c1_counterexample :
    should_update_cache sysArr = (.error .attributeError, sysArr) := rfl

/-- C2: over every benign state — the file is absent, or unparseable, or parses
to a dict whose `last_update` is missing or a string — `should_update_cache`
returns, without raising, exactly the spec's staleness predicate: `true` iff
the file is absent, or cannot be parsed, or lacks a valid timestamp, or the
elapsed time since the stored timestamp strictly exceeds the 300-second TTL. -/
theorem c2_staleness (s : Sys) (h : benignCache s = true) :
    should_update_cache s = (.ok (is_stale_spec s), s) := by
  rcases s with ⟨file, now⟩
  rcases file with _ | (_ | j)
  · rfl
  · rfl
  · cases j with
    | obj fields =>
        cases hf : getField fields "last_update" with
        | none =>
            rw [suc_of_checkBody_valueError _ now (checkBody_no_field fields now hf)]
            simp only [is_stale_spec, hf]
        | some v =>
            cases v with
            | str t =>
                cases ht : natFromStr t with
                | none =>
                    rw [suc_of_checkBody_valueError _ now (checkBody_badstr fields t now hf ht)]
                    simp only [is_stale_spec, hf, ht]
                | some lu =>
                    rw [suc_of_checkBody_ok _ now _ (checkBody_str fields t lu now hf ht)]
                    simp only [is_stale_spec, hf, ht, cache_duration]
            | null => simp [benignCache, hf] at h
            | bool b => simp [benignCache, hf] at h
            | num q => simp [benignCache, hf] at h
            | arr es => simp [benignCache, hf] at h
            | obj fs => simp [benignCache, hf] at h
    | null => simp [benignCache] at h
    | bool b => simp [benignCache] at h
    | num q => simp [benignCache] at h
    | str t => simp [benignCache] at h
    | arr es => simp [benignCache] at h

/-- Witness for C2: with `last_update = now - 301` the check returns `true`;
with `last_update = now - 299` it returns `false` (TTL 300, strict). -/
theorem c2_staleness_witness :
    should_update_cache sys301 = (.ok true, sys301) ∧
    should_update_cache sys299 = (.ok false, sys299) := by
  have h1 := c2_staleness sys301 (by rfl)
  have h2 := c2_staleness sys299 (by rfl)
  refine ⟨?_, ?_⟩
  · rw [h1]
    rfl
  · rw [h2]
    rfl

theorem hit_parsed (s : Sys) (h : (should_update_cache s).1 = .ok false) :
    ∃ j, s.file = some (some j) := by
  rcases s with ⟨file, now⟩
  rcases file with _ | (_ | j)
  · simp [should_update_cache] at h
  · simp [should_update_cache] at h
  · exact ⟨j, rfl⟩

theorem should_update_cache_eq (s : Sys) (r : Except PyErr Bool)
    (h : (should_update_cache s).1 = r) : should_update_cache s = (r, s) := by
  have h2 := snd_should_update_cache s
  rcases hh : should_update_cache s with ⟨r', s'⟩
  rw [hh] at h h2
  simp only at h h2
  rw [h, h2]

/-- C3: `get_migration_stats` with a healthy database: on a cache hit it
returns the deserialized cache-file content without touching the database
(no connection is opened); on a miss it computes the snapshot from the `users`
table, overwrites the cache file with it, and returns that fresh snapshot. -/
theorem c3_get_or_refresh (db : List UserRow) (s : Sys) :
    ((should_update_cache s).1 = .ok false →
      ∃ j, s.file = some (some j) ∧ get_migration_stats db .ok s = (.ok j, s, noDb)) ∧
    ((should_update_cache s).1 = .ok true →
      get_migration_stats db .ok s =
        (.ok (statsDict db s.now), ⟨some (some (statsDict db s.now)), s.now⟩,
          ⟨true, true, true, true⟩)) := by
  constructor
  · intro h
    obtain ⟨j, hj⟩ := hit_parsed s h
    refine ⟨j, hj, ?_⟩
    have hs := should_update_cache_eq s _ h
    simp only [get_migration_stats, hs, readCache, hj]
  · intro h
    have hs := should_update_cache_eq s _ h
    rcases s with ⟨file, now⟩
    simp [get_migration_stats, hs, dbTryBlock, runFinally]

/-- Witness for C3: on a fresh cache `jHit` the call returns it verbatim with
no database access; on an absent cache it computes, stores, and returns the
snapshot of `db4`. -/
theorem c3_get_or_refresh_witness :
    (∃ j, sysHit.file = some (some j) ∧
        get_migration_stats [] .ok sysHit = (.ok j, sysHit, noDb)) ∧
    get_migration_stats db4 .ok ⟨none, 100⟩ =
      (.ok (statsDict db4 100), ⟨some (some (statsDict db4 100)), 100⟩,
        ⟨true, true, true, true⟩) :=
  ⟨(c3_get_or_refresh [] sysHit).1 rfl, (c3_get_or_refresh db4 ⟨none, 100⟩).2 rfl⟩

/-- C9: on a cache hit (`should_update_cache` returns `false`),
`get_migration_stats` returns exactly the JSON value parsed from the cache
file — no validation or transformation of its fields — whatever the database
or its availability is. -/
theorem c9_hit_verbatim (db : List UserRow) (beh : DbBehavior) (s : Sys) (j : Json)
    (hfile : s.file = some (some j)) (hhit : (should_update_cache s).1 = .ok false) :
    get_migration_stats db beh s = (.ok j, s, noDb) := by
  have hs := should_update_cache_eq s _ hhit
  simp only [get_migration_stats, hs, readCache, hfile]

/-- Witness for C9: `jHit` has every snapshot field missing except
`last_update`, and is returned verbatim even with an unreachable database. -/
theorem c9_hit_verbatim_witness :
    get_migration_stats db4 .connectFail sysHit = (.ok jHit, sysHit, noDb) :=
  c9_hit_verbatim db4 .connectFail sysHit jHit rfl rfl

/-- C4: in every freshly computed snapshot, `migration_rate` is
`round(migrated_users / total_users * 100, 2)` when `total_users > 0` and `0`
when `total_users = 0` (no division error); in particular `total_users = 4`,
`migrated_users = 1` gives `25.0`, and an empty table gives `0`. -/
theorem c4_migration_rate :
    (∀ (db : List UserRow) (now : Nat),
        jsonGetField (statsDict db now) "migration_rate" =
          some (.num (if 0 < total_users db then
            pyRound2 ((migrated_users db : ℚ) / (total_users db : ℚ) * 100) else 0))) ∧
    jsonGetField (statsDict db4 0) "migration_rate" = some (.num 25) ∧
    jsonGetField (statsDict [] 0) "migration_rate" = some (.num 0) := by
  refine ⟨fun db now => rfl, ?_, rfl⟩
  have h1 : jsonGetField (statsDict db4 0) "migration_rate" =
      some (.num (if 0 < total_users db4 then
        pyRound2 ((migrated_users db4 : ℚ) / (total_users db4 : ℚ) * 100) else 0)) := rfl
  rw [h1]
  have htl : total_users db4 = 4 := rfl
  have hm : migrated_users db4 = 1 := rfl
  rw [htl, hm]
  have harg : ((1 : Nat) : ℚ) / ((4 : Nat) : ℚ) * 100 = 25 := by norm_num
  rw [if_pos (by norm_num : (0 : Nat) < 4), harg]
  have hval : pyRound2 25 = 25 := by
    rw [pyRound2]
    have h2 : (25 : ℚ) * 100 = 2500 := by norm_num
    rw [h2]
    have hnum : (2500 : ℚ).num = 2500 := by norm_num
    have hden : (2500 : ℚ).den = 1 := by norm_num
    rw [hnum, hden]
    have hr : roundHalfEven 2500 1 = 2500 := by decide
    rw [hr]
    norm_num
  rw [hval]

/-- C5: every freshly computed snapshot satisfies
`pending_users = total_users - migrated_users` and
`0 ≤ migrated_users ≤ total_users`: the count of rows with a non-null
`cm_firebase_token` never exceeds the count of all rows. -/
theorem c5_invariants (db : List UserRow) (now : Nat) :
    jsonGetField (statsDict db now) "pending_users" =
      some (.num ((total_users db : ℚ) - (migrated_users db : ℚ))) ∧
    0 ≤ migrated_users db ∧ migrated_users db ≤ total_users db :=
  ⟨rfl, Nat.zero_le _, List.length_filter_le _ _⟩

/-- C6: storing a snapshot to the cache file and reading it back within the
300-second TTL window yields exactly the stored JSON value — every field and
the order of `hourly_data` / `daily_data` included (the equality is structural
on `Json`) — and the staleness check accepts it. -/
theorem c6_roundtrip (db : List UserRow) (t now : Nat) (s : Sys) (h : now - t ≤ 300) :
    should_update_cache ⟨(storeCache (statsDict db t) s).file, now⟩ =
      (.ok false, ⟨(storeCache (statsDict db t) s).file, now⟩) ∧
    readCache ⟨(storeCache (statsDict db t) s).file, now⟩ = .ok (statsDict db t) := by
  have hfile : (storeCache (statsDict db t) s).file = some (some (statsDict db t)) := rfl
  constructor
  · rw [hfile]
    have hgf : getField (statsFields db t) "last_update" = some (.str (natToStr t)) := rfl
    have hcb := checkBody_str (statsFields db t) (natToStr t) t now hgf (natFromStr_natToStr t)
    have hdec : decide (now - t > cache_duration) = false := by
      simp only [cache_duration, decide_eq_false_iff_not, gt_iff_lt, not_lt]
      omega
    rw [hdec] at hcb
    exact suc_of_checkBody_ok _ now false hcb
  · rw [hfile]
    rfl

/-- Witness for C6: the snapshot of `db4` stored at time 100 is read back
identically at time 200 (elapsed 100 ≤ 300) and judged fresh. -/
theorem c6_roundtrip_witness :
    should_update_cache ⟨(storeCache (statsDict db4 100) ⟨none, 0⟩).file, 200⟩ =
      (.ok false, ⟨(storeCache (statsDict db4 100) ⟨none, 0⟩).file, 200⟩) ∧
    readCache ⟨(storeCache (statsDict db4 100) ⟨none, 0⟩).file, 200⟩ =
      .ok (statsDict db4 100) :=
  c6_roundtrip db4 100 200 ⟨none, 0⟩ (by decide)

/-- C7: on every execution path of the snapshot computation — normal
completion, failure of any of the four queries, and failure to open the
connection — any connection or cursor that was opened is closed again before
control leaves `get_migration_stats`. -/
theorem c7_resources_released (db : List UserRow) (beh : DbBehavior) (s : Sys) :
    ((get_migration_stats db beh s).2.2.connOpened = true →
      (get_migration_stats db beh s).2.2.connClosed = true) ∧
    ((get_migration_stats db beh s).2.2.cursorOpened = true →
      (get_migration_stats db beh s).2.2.cursorClosed = true) := by
  rcases hs : should_update_cache s with ⟨r, s'⟩
  rcases r with e | b
  · simp [get_migration_stats, hs, noDb]
  · cases b
    · simp [get_migration_stats, hs, noDb]
    · cases beh <;> simp [get_migration_stats, hs, dbTryBlock, runFinally, noDb]

/-- Witness for C7: when query 0 fails on a stale cache, the connection and
cursor that were opened are both closed. -/
theorem c7_resources_released_witness :
    (get_migration_stats db4 (.failAt 0) sysStale).2.2.connClosed = true ∧
    (get_migration_stats db4 (.failAt 0) sysStale).2.2.cursorClosed = true :=
  ⟨(c7_resources_released db4 (.failAt 0) sysStale).1 rfl,
   (c7_resources_released db4 (.failAt 0) sysStale).2 rfl⟩

/-- C8 (code defect): with a stale cache, a *query* failure does propagate the
pymysql error (the spec's `RepositoryError`) with the cache file unchanged —
but a *connection* failure does not.  `conn = self.get_db_connection()` sits
inside the `try`, so when it raises, the `finally` block's unconditional
`cursor.close()` hits the never-bound local `cursor` and raises
`UnboundLocalError`, which replaces the pymysql error: the caller receives
`UnboundLocalError`, not the promised `RepositoryError` (the cache file is
still unchanged). -/
theorem c8_connect_failure_masked :
    get_migration_stats db4 (.failAt 0) sysStale =
      (.error .repositoryError, sysStale, ⟨true, true, true, true⟩) ∧
    get_migration_stats db4 .connectFail sysStale =
      (.error .unboundLocalError, sysStale, noDb) ∧
    PyErr.unboundLocalError ≠ PyErr.repositoryError :=
  ⟨rfl, rfl, by decide⟩
